import Mathlib

/-!
Shallow embedding of the flashcards application and its two core subsystems:

* the print layout / pagination engine (`calculateLayout`,
  `generatePrintPages` from the `PrintPreview` component), and
* the card document editing engine (`addElement`, `updateElement`,
  `deleteElement`, `duplicateElement`, `addToHistory`, `undo`, `redo`
  from the `CardEditor` component).

JavaScript numbers appearing here are all integer-valued; `Math.floor`
on non-negative ratios is `Nat` division.  The mutable aliasing that
`Object.assign(card, …)` performs on the live `card` object is modelled
explicitly: a history entry is either a reference to the live card
object (`HistEntry.liveRef`) or an object that is never mutated after
being pushed (`HistEntry.snapshot`).  The unbounded `for` loop in
`generatePrintPages` is modelled with explicit fuel; a `none` result for
every fuel value means the loop never terminates.
-/

namespace Flashcards

/-! ## Data model (`types.ts`) -/

inductive ElementType
  | text
  | image
  | shape
deriving DecidableEq

/-- One positioned visual element on a card side (`CardElement` in
`types.ts`).  Optional TypeScript fields become `Option`. -/
structure CardElement where
  id : String
  type : ElementType
  content : String
  x : Int
  y : Int
  width : Option Int := none
  height : Option Int := none
  fontSize : Option Int := none
  fontFamily : Option String := none
  fontWeight : Option String := none
  fontStyle : Option String := none
  color : Option String := none
  backgroundColor : Option String := none
  rotation : Option Int := none
  zIndex : Option Int := none
deriving DecidableEq

/-- One side of a card (`CardContent` in `types.ts`). -/
structure CardContent where
  elements : List CardElement
  backgroundColor : Option String := none
  backgroundImage : Option String := none
deriving DecidableEq

/-- A card (`Card` in `types.ts`). -/
structure Card where
  id : String
  deck_id : String
  title : Option String := none
  front_content : CardContent
  back_content : CardContent
  position : Nat := 0
  created_at : String := ""
  updated_at : String := ""
deriving DecidableEq

/-- The deck fields the print engine reads (`Deck.custom_width`,
`Deck.custom_height` in `types.ts`). -/
structure DeckDims where
  custom_width : Option Nat := none
  custom_height : Option Nat := none
deriving DecidableEq

/-- Front or back, used both for the current editor side and for
a print page side tag. -/
inductive SideTag
  | front
  | back
deriving DecidableEq

/-! ## Print layout engine (`PrintPreview`) -/

inductive CardSizeKey
  | threeByFive
  | fourBySix
  | fiveByEight
  | custom
deriving DecidableEq

inductive PaperSizeKey
  | letter
  | a4
  | legal
deriving DecidableEq

inductive Orientation
  | portrait
  | landscape
deriving DecidableEq

inductive MarginKey
  | normal
  | narrow
deriving DecidableEq

/-- The `printSettings` state object of `PrintPreview`.  The
`cardsPerPage` field is part of the state literal but is never read by
the layout computation. -/
structure PrintSettings where
  cardSize : CardSizeKey
  cardsPerPage : Nat := 6
  includeBack : Bool := true
  paperSize : PaperSizeKey := .letter
  orientation : Orientation := .portrait
  margins : MarginKey := .normal
deriving DecidableEq

structure Dim where
  width : Nat
  height : Nat
deriving DecidableEq

/-- JavaScript `o || d` on an optional number: `undefined` and `0` are
falsy. -/
def jsOrNat (o : Option Nat) (d : Nat) : Nat :=
  match o with
  | some n => if n = 0 then d else n
  | none => d

/-- The `cardSizes` table; `custom` reads
`deck.custom_width || 216` and `deck.custom_height || 360`. -/
def cardSizes (deck : DeckDims) : CardSizeKey → Dim
  | .threeByFive => { width := 216, height := 360 }
  | .fourBySix => { width := 288, height := 432 }
  | .fiveByEight => { width := 360, height := 576 }
  | .custom =>
    { width := jsOrNat deck.custom_width 216
      height := jsOrNat deck.custom_height 360 }

/-- The `paperSizes` table. -/
def paperSizes : PaperSizeKey → Dim
  | .letter => { width := 612, height := 792 }
  | .a4 => { width := 595, height := 842 }
  | .legal => { width := 612, height := 1008 }

/-- Margin resolution: 36 for normal margins, 18 otherwise. -/
def marginOf : MarginKey → Nat
  | .normal => 36
  | .narrow => 18

structure Layout where
  cardsPerRow : Nat
  rowsPerPage : Nat
  cardsPerPage : Nat
deriving DecidableEq

/-- Function `calculateLayout` from `PrintPreview`: resolve card and paper
dimensions, subtract margins, and divide with an 18pt inter-card
spacing.  All quantities are non-negative integers, so `Math.floor` of
the ratios is `Nat` division. -/
def calculateLayout (deck : DeckDims) (s : PrintSettings) : Layout :=
  let cardSize := cardSizes deck s.cardSize
  let paperSize := paperSizes s.paperSize
  let margin := marginOf s.margins
  let availableWidth := paperSize.width - margin * 2
  let availableHeight := paperSize.height - margin * 2
  let cardsPerRow := availableWidth / (cardSize.width + 18)
  let rowsPerPage := availableHeight / (cardSize.height + 18)
  { cardsPerRow := cardsPerRow
    rowsPerPage := rowsPerPage
    cardsPerPage := cardsPerRow * rowsPerPage }

/-- One output page: a side tag and the slice of cards placed on it. -/
structure Page where
  side : SideTag
  cards : List Card
deriving DecidableEq

/-- The `for (let i = 0; i < cards.length; i += cardsPerPage)` loop of
`generatePrintPages`, one side at a time, with explicit fuel.  Each
iteration pushes `cards.slice(i, i + step)`, i.e.
`(cards.drop i).take step`.  `none` means the fuel ran out before the
loop condition became false; with `step = 0` and a non-empty card list
that happens for every fuel value, i.e. the loop never terminates. -/
def pagesLoop (side : SideTag) (cards : List Card) (step : Nat) :
    Nat → Nat → Option (List Page)
  | 0, i => if i < cards.length then none else some []
  | fuel + 1, i =>
    if i < cards.length then
      match pagesLoop side cards step fuel (i + step) with
      | none => none
      | some rest => some ({ side := side, cards := (cards.drop i).take step } :: rest)
    else some []

/-- Function `generatePrintPages` from `PrintPreview`: front pages first, then —
when `includeBack` is set — back pages built by an identical second
loop, concatenated after the fronts. -/
def generatePrintPages (fuel : Nat) (deck : DeckDims) (cards : List Card)
    (s : PrintSettings) : Option (List Page) :=
  let cardsPerPage := (calculateLayout deck s).cardsPerPage
  match pagesLoop .front cards cardsPerPage fuel 0 with
  | none => none
  | some frontPages =>
    if s.includeBack then
      match pagesLoop .back cards cardsPerPage fuel 0 with
      | none => none
      | some backPages => some (frontPages ++ backPages)
    else some frontPages

/-- Reference partition of a list into consecutive chunks of size
`k + 1` (the successor index makes termination structural). -/
def chunksPos (k : Nat) : List Card → List (List Card)
  | [] => []
  | a :: l => (a :: l).take (k + 1) :: chunksPos k (l.drop k)
termination_by l => l.length
decreasing_by
  simp only [List.length_drop, List.length_cons]
  omega

/-! ## Card editing engine (`CardEditor`)

The component keeps the prop object `card` and mutates it in place with
`Object.assign(card, updatedCard)`.  History entries are JavaScript
object references: `useState<Card[]>([card])` seeds the history with the
live `card` object itself, and `handleMouseUp` pushes `card` again,
while `addElement` / `deleteElement` / `duplicateElement` push freshly
spread `updatedCard` objects that are never mutated afterwards.  A
history entry is therefore either `liveRef` (resolves to the current
value of the live card) or `snapshot c` (a fixed value). -/

/-- One entry of the `history` array: a reference to the live, mutated
`card` object, or a freshly created object that is never written to
after being pushed. -/
inductive HistEntry
  | liveRef
  | snapshot (c : Card)
deriving DecidableEq

/-- The `CardEditor` component state relevant to the claims. -/
structure EditorState where
  card : Card
  currentSide : SideTag := .front
  selectedElement : Option String := none
  isDragging : Bool := false
  history : List HistEntry
  historyIndex : Nat
deriving DecidableEq

/-- Initial state: `useState([card])` — history seeded with the live
card object — and `historyIndex = 0`. -/
def initState (card : Card) : EditorState :=
  { card := card, history := [.liveRef], historyIndex := 0 }

/-- Dereference a history entry: `liveRef` reads the current value of
the live `card` object. -/
def resolveEntry (s : EditorState) : HistEntry → Card
  | .liveRef => s.card
  | .snapshot c => c

/-- Reading the content of the selected side of a card. -/
def getContent (c : Card) : SideTag → CardContent
  | .front => c.front_content
  | .back => c.back_content

/-- The computed-key update
with the computed key selecting `front_content` or `back_content`. -/
def setContent (c : Card) : SideTag → CardContent → Card
  | .front, cc => { c with front_content := cc }
  | .back, cc => { c with back_content := cc }

def currentContent (s : EditorState) : CardContent :=
  getContent s.card s.currentSide

/-- Function `addToHistory`: truncate after the cursor, append, move the cursor
to the new end. -/
def addToHistory (e : HistEntry) (s : EditorState) : EditorState :=
  let newHistory := s.history.take (s.historyIndex + 1) ++ [e]
  { s with history := newHistory, historyIndex := newHistory.length - 1 }

/-- Function `undo`: when the cursor is positive, step it back and
`Object.assign(card, history[historyIndex - 1])`. -/
def undo (s : EditorState) : EditorState :=
  if s.historyIndex > 0 then
    let previousCard := resolveEntry s ((s.history.get? (s.historyIndex - 1)).getD .liveRef)
    { s with historyIndex := s.historyIndex - 1, card := previousCard }
  else s

/-- Function `redo`: symmetric on the upper bound. -/
def redo (s : EditorState) : EditorState :=
  if s.historyIndex < s.history.length - 1 then
    let nextCard := resolveEntry s ((s.history.get? (s.historyIndex + 1)).getD .liveRef)
    { s with historyIndex := s.historyIndex + 1, card := nextCard }
  else s

/-- Element id generation: the string `element-` followed by the
`Date.now()` value; the timestamp is an input of the model. -/
def mkElementId (now : Nat) : String :=
  "element-" ++ toString now

/-- JavaScript `o || d` on an optional string: `undefined` and the empty
string are falsy. -/
def jsOrString (o : Option String) (d : String) : String :=
  match o with
  | some v => if v = "" then d else v
  | none => d

/-- The element literal built by `addElement`; `count` is
`currentContent.elements.length`. -/
def newElementFor (now : Nat) (ty : ElementType) (shapeType : Option String)
    (count : Nat) : CardElement :=
  { id := mkElementId now
    type := ty
    content :=
      match ty with
      | .text => "New Text"
      | .image => ""
      | .shape => jsOrString shapeType ("rectangle")
    x := 50
    y := 50
    width := some (if ty = .text then 200 else 100)
    height := some (if ty = .text then 30 else 100)
    fontSize := some 16
    fontFamily := some ("Inter")
    color := some ("#000000")
    backgroundColor := some (if ty = .shape then ("#e5e7eb") else ("transparent"))
    rotation := some 0
    zIndex := some ((count : Int) + 1) }

/-- Function `addElement`: append the new element to the active side, commit a
fresh snapshot object, assign the live card, select the new element. -/
def addElement (now : Nat) (ty : ElementType) (shapeType : Option String)
    (s : EditorState) : EditorState :=
  let content := currentContent s
  let newElement := newElementFor now ty shapeType content.elements.length
  let updatedCard :=
    setContent s.card s.currentSide
      { content with elements := content.elements ++ [newElement] }
  let s1 := addToHistory (.snapshot updatedCard) s
  { s1 with card := updatedCard, selectedElement := some newElement.id }

/-- Function `updateElement` restricted to the `{ x, y }` update issued during a
drag: maps over the elements of the active side, no history commit. -/
def updateElementXY (elementId : String) (nx ny : Int) (s : EditorState) :
    EditorState :=
  let content := currentContent s
  let updatedElements :=
    content.elements.map fun el =>
      if el.id = elementId then { el with x := nx, y := ny } else el
  let updatedCard :=
    setContent s.card s.currentSide { content with elements := updatedElements }
  { s with card := updatedCard }

/-- Function `handleMouseUp`: the drag-end commit pushes the live `card` object
itself into the history array. -/
def handleMouseUp (s : EditorState) : EditorState :=
  if s.isDragging then
    let s1 := addToHistory .liveRef s
    { s1 with isDragging := false }
  else s

/-- Function `deleteElement`: filter the id out, commit a fresh snapshot object,
assign the live card, clear the selection. -/
def deleteElement (elementId : String) (s : EditorState) : EditorState :=
  let content := currentContent s
  let updatedElements := content.elements.filter fun el => el.id ≠ elementId
  let updatedCard :=
    setContent s.card s.currentSide { content with elements := updatedElements }
  let s1 := addToHistory (.snapshot updatedCard) s
  { s1 with card := updatedCard, selectedElement := none }

/-- Function `duplicateElement`: when the id is found, append a clone with a new
timestamp id, `+20/+20` offset and `zIndex = count + 1`, commit, assign,
select the clone; otherwise do nothing. -/
def duplicateElement (now : Nat) (elementId : String) (s : EditorState) :
    EditorState :=
  let content := currentContent s
  match content.elements.find? (fun el => el.id = elementId) with
  | none => s
  | some element =>
    let newElement :=
      { element with
        id := mkElementId now
        x := element.x + 20
        y := element.y + 20
        zIndex := some ((content.elements.length : Int) + 1) }
    let updatedCard :=
      setContent s.card s.currentSide
        { content with elements := content.elements ++ [newElement] }
    let s1 := addToHistory (.snapshot updatedCard) s
    { s1 with card := updatedCard, selectedElement := some newElement.id }

/-- The ids on the active side, in element order. -/
def activeIds (s : EditorState) : List String :=
  (currentContent s).elements.map (·.id)

/-- A sequence of committed editor mutations, each `add`/`dup` carrying
the `Date.now()` value observed by that call. -/
inductive EditOp
  | add (now : Nat) (ty : ElementType) (shapeType : Option String)
  | del (elementId : String)
  | dup (now : Nat) (elementId : String)
deriving DecidableEq

def applyOp : EditOp → EditorState → EditorState
  | .add now ty st, s => addElement now ty st s
  | .del i, s => deleteElement i s
  | .dup now i, s => duplicateElement now i s

def applyOps (ops : List EditOp) (s : EditorState) : EditorState :=
  ops.foldl (fun s op => applyOp op s) s

/-- The id generated by an `add`/`dup` op is not already present on the
active side at the moment the op runs (true whenever `Date.now()` is
distinct across calls). -/
def opFresh (s : EditorState) : EditOp → Prop
  | .add now _ _ => mkElementId now ∉ activeIds s
  | .del _ => True
  | .dup now _ => mkElementId now ∉ activeIds s

instance (s : EditorState) (op : EditOp) : Decidable (opFresh s op) :=
  match op with
  | .add now _ _ => inferInstanceAs (Decidable (mkElementId now ∉ activeIds s))
  | .del _ => inferInstanceAs (Decidable True)
  | .dup now _ => inferInstanceAs (Decidable (mkElementId now ∉ activeIds s))

/-- Every op in the sequence generates a fresh id at its point of
application. -/
def FreshOps : List EditOp → EditorState → Prop
  | [], _ => True
  | op :: ops, s => opFresh s op ∧ FreshOps ops (applyOp op s)

def decFreshOps : (ops : List EditOp) → (s : EditorState) →
    Decidable (FreshOps ops s)
  | [], _ => inferInstanceAs (Decidable True)
  | op :: ops, s =>
    @instDecidableAnd _ _ inferInstance (decFreshOps ops (applyOp op s))

instance (ops : List EditOp) (s : EditorState) : Decidable (FreshOps ops s) :=
  decFreshOps ops s

/-! ## Concrete inputs shared by witnesses and counterexamples -/

/-- A card with empty sides, used as a concrete input. -/
def sampleCard : Card :=
  { id := "card-1", deck_id := "deck-1",
    front_content := { elements := [] }, back_content := { elements := [] } }

/-- A concrete card with a numbered id and empty sides. -/
def plainCard (n : Nat) : Card :=
  { id := "card-" ++ toString n, deck_id := "deck-1",
    front_content := { elements := [] }, back_content := { elements := [] } }

/-- Five concrete cards, in order. -/
def fiveCards : List Card :=
  [plainCard 1, plainCard 2, plainCard 3, plainCard 4, plainCard 5]

/-- Print settings selecting a 3x5 card on letter paper with normal
margins, back sides excluded. -/
def settings3x5Front : PrintSettings :=
  { cardSize := .threeByFive, includeBack := false }

/-- The same settings with back sides included. -/
def settings3x5Back : PrintSettings :=
  { cardSize := .threeByFive, includeBack := true }

/-- A deck whose custom card is wider than the printable area of letter
paper. -/
def oversizedDeck : DeckDims :=
  { custom_width := some 600, custom_height := some 360 }

/-- Settings selecting that oversized custom card size. -/
def oversizedSettings : PrintSettings :=
  { cardSize := .custom }

/-- A history holding the live reference and two snapshots, with the
cursor rewound to 0, as after two commits and two undos. -/
def historyBackState : EditorState :=
  { card := sampleCard,
    history := [.liveRef, .snapshot sampleCard, .snapshot sampleCard],
    historyIndex := 0 }

/-- The state reached by one committed `addElement` on the sample
card. -/
def oneElementState : EditorState :=
  addElement 0 .text none (initState sampleCard)

/-! ## General lemmas -/

theorem getContent_setContent_same (c : Card) (side : SideTag) (cc : CardContent) :
    getContent (setContent c side cc) side = cc := by
  cases side <;> rfl

theorem setContent_getContent (c : Card) (side : SideTag) :
    setContent c side (getContent c side) = c := by
  cases side <;> rfl

/-- With a positive step `k + 1`, the page loop computes exactly the
chunk partition of the not-yet-consumed suffix, given enough fuel. -/
theorem pagesLoop_eq_chunksPos (side : SideTag) (cards : List Card) (k : Nat) :
    ∀ (fuel i : Nat), cards.length - i ≤ fuel →
      pagesLoop side cards (k + 1) fuel i
        = some ((chunksPos k (cards.drop i)).map fun c => { side := side, cards := c }) := by
  intro fuel
  induction fuel with
  | zero =>
    intro i h
    have hlen : cards.length ≤ i := by omega
    rw [pagesLoop, if_neg (by omega), List.drop_eq_nil_of_le hlen]
    simp [chunksPos]
  | succ fuel ih =>
    intro i h
    by_cases hi : i < cards.length
    · rw [pagesLoop, if_pos hi, ih (i + (k + 1)) (by omega)]
      obtain ⟨a, l, hdrop⟩ : ∃ a l, cards.drop i = a :: l := by
        cases hd : cards.drop i with
        | nil =>
          exfalso
          have := List.drop_eq_nil_iff.mp hd
          omega
        | cons a l => exact ⟨a, l, rfl⟩
      have hdrop2 : cards.drop (i + (k + 1)) = l.drop k := by
        rw [← List.drop_drop, hdrop]
        simp [List.drop_succ_cons]
      rw [hdrop2, hdrop, chunksPos]
      simp [hdrop]
    · rw [pagesLoop, if_neg hi, List.drop_eq_nil_of_le (by omega)]
      simp [chunksPos]

/-- The chunks concatenate back to the original list: every element is
covered exactly once, in the original order. -/
theorem chunksPos_flatten (k : Nat) (l : List Card) : (chunksPos k l).flatten = l := by
  induction l using chunksPos.induct k with
  | case1 => simp [chunksPos]
  | case2 a l ih =>
    rw [chunksPos, List.flatten_cons, ih, List.take_succ_cons]
    simp [List.take_append_drop]

/-- Helper for C1: with a step of 0 the page loop never moves the index
past the list length, so it exhausts any amount of fuel. -/
theorem pagesLoop_step_zero (side : SideTag) (cards : List Card) :
    ∀ (fuel i : Nat), i < cards.length → pagesLoop side cards 0 fuel i = none := by
  intro fuel
  induction fuel with
  | zero =>
    intro i hi
    rw [pagesLoop, if_pos hi]
  | succ fuel ih =>
    intro i hi
    rw [pagesLoop, if_pos hi]
    have hzero : i + 0 = i := rfl
    rw [hzero, ih i hi]

/-- Shape shared by `addElement` and the found branch of
`duplicateElement`: append one element to the active side, commit, and
change the selection.  The active ids gain exactly the appended id. -/
theorem activeIds_commitAppend (s : EditorState) (e : HistEntry)
    (x : CardElement) (sel : Option String) :
    activeIds
      { addToHistory e s with
        card := setContent s.card s.currentSide
          { currentContent s with elements := (currentContent s).elements ++ [x] }
        selectedElement := sel }
      = activeIds s ++ [x.id] := by
  simp [activeIds, addToHistory, currentContent, getContent_setContent_same]

theorem nodup_append_fresh {l : List String} {a : String}
    (h : l.Nodup) (ha : a ∉ l) : (l ++ [a]).Nodup := by
  refine h.append (List.nodup_singleton _) ?_
  intro x hx hmem
  rw [List.mem_singleton] at hmem
  subst hmem
  exact ha hx

/-- Every committed mutation preserves uniqueness of the active-side id
set, provided the generated id of an add or duplicate is fresh. -/
theorem nodup_applyOp (op : EditOp) (s : EditorState)
    (h0 : (activeIds s).Nodup) (hf : opFresh s op) :
    (activeIds (applyOp op s)).Nodup := by
  cases op with
  | add now ty st =>
    rw [applyOp]
    unfold addElement
    simp only [activeIds_commitAppend]
    have hid : (newElementFor now ty st (currentContent s).elements.length).id
        = mkElementId now := rfl
    rw [hid]
    exact nodup_append_fresh h0 hf
  | del i =>
    rw [applyOp]
    unfold deleteElement
    have hids : activeIds
        { addToHistory
            (.snapshot (setContent s.card s.currentSide
              { currentContent s with
                elements := (currentContent s).elements.filter fun el => el.id ≠ i })) s with
          card := setContent s.card s.currentSide
            { currentContent s with
              elements := (currentContent s).elements.filter fun el => el.id ≠ i }
          selectedElement := none }
        = ((currentContent s).elements.filter fun el => el.id ≠ i).map (·.id) := by
      simp [activeIds, addToHistory, currentContent, getContent_setContent_same]
    rw [hids]
    exact ((List.filter_sublist _).map _).nodup h0
  | dup now i =>
    rw [applyOp]
    unfold duplicateElement
    cases hfind : (currentContent s).elements.find? (fun el => el.id = i) with
    | none =>
      simp only [hfind]
      exact h0
    | some el =>
      simp only [hfind, activeIds_commitAppend]
      exact nodup_append_fresh h0 hf

/-! ## Claims -/

/-- C1: with an oversized custom card the computed capacity is 0, and
`generatePrintPages` has no zero-capacity guard: its front-page loop
advances the index by 0 and never terminates on a non-empty card list
(modelled as a `none` result for every fuel value).  The code neither
reports a configuration conflict nor produces any page set, against the
requirement that pagination not proceed and the conflict be reported. -/
theorem c1_zero_capacity_no_guard (fuel : Nat) :
    (calculateLayout oversizedDeck oversizedSettings).cardsPerPage = 0
    ∧ generatePrintPages fuel oversizedDeck [sampleCard] oversizedSettings = none := by
  have hcap : (calculateLayout oversizedDeck oversizedSettings).cardsPerPage = 0 := rfl
  refine ⟨hcap, ?_⟩
  have hl := pagesLoop_step_zero .front [sampleCard] fuel 0 (by simp)
  simp only [generatePrintPages, hcap, hl]

/-- C2: the history seed aliases the live card object, which
`Object.assign` then mutates, so after a committed `addElement` the
stored initial snapshot no longer equals the initial document and
`undo` fails to restore the immediately preceding state — it returns
the post-commit card unchanged.  The code contradicts the claimed
immutability of snapshots and exact restoration. -/
theorem c2_undo_after_commit_broken :
    (undo (addElement 0 .text none (initState sampleCard))).card ≠ sampleCard
    ∧ resolveEntry (addElement 0 .text none (initState sampleCard))
        (((addElement 0 .text none (initState sampleCard)).history.get? 0).getD .liveRef)
      ≠ sampleCard
    ∧ (undo (addElement 0 .text none (initState sampleCard))).card
      = (addElement 0 .text none (initState sampleCard)).card := by
  refine ⟨by decide, by decide, by decide⟩

/-- C3 (amended): starting from unique active-side ids, any sequence of
add, delete and duplicate calls whose add and duplicate timestamps
generate ids not already present on the active side keeps the id set
free of duplicates. -/
theorem c3_unique_ids_fresh (ops : List EditOp) (s : EditorState)
    (h0 : (activeIds s).Nodup) (hf : FreshOps ops s) :
    (activeIds (applyOps ops s)).Nodup := by
  induction ops generalizing s with
  | nil => simpa [applyOps] using h0
  | cons op ops ih =>
    obtain ⟨hfresh, hrest⟩ := hf
    have hstep : applyOps (op :: ops) s = applyOps ops (applyOp op s) := rfl
    rw [hstep]
    exact ih (applyOp op s) (nodup_applyOp op s h0 hfresh) hrest

/-- Witness for C3 (amended): add at times 5 and 6, duplicate the first
element at time 7, then delete the second; ids stay distinct. -/
theorem c3_unique_ids_fresh_witness :
    ((activeIds (initState sampleCard)).Nodup
      ∧ FreshOps
          [.add 5 .text none, .add 6 .text none,
            .dup 7 (mkElementId 5), .del (mkElementId 6)]
          (initState sampleCard))
    ∧ (activeIds (applyOps
          [.add 5 .text none, .add 6 .text none,
            .dup 7 (mkElementId 5), .del (mkElementId 6)]
          (initState sampleCard))).Nodup :=
  ⟨⟨by decide, by decide⟩,
    c3_unique_ids_fresh _ _ (by decide) (by decide)⟩

/-- C3 counterexample: two `addElement` calls observing the same
`Date.now()` value produce two elements carrying the same id on the
active side, refuting the claim as stated for arbitrary call
sequences. -/
theorem c3_counterexample_same_timestamp :
    ¬ (activeIds (applyOps [.add 5 .text none, .add 5 .text none]
        (initState sampleCard))).Nodup := by
  decide

/-- C4: `calculateLayout` on a 3x5 card, letter paper and normal
margins resolves card dimensions 216 by 360, printable area 540 by 720,
and returns 2 cards per row, 1 row per page, 2 cards per page, the
counts being floor divisions by the card dimension plus 18pt spacing. -/
theorem c4_calculateLayout_3x5_letter_normal (deck : DeckDims) (cpp : Nat)
    (ib : Bool) (o : Orientation) :
    (cardSizes deck .threeByFive).width = 216
    ∧ (cardSizes deck .threeByFive).height = 360
    ∧ (paperSizes .letter).width - 2 * marginOf .normal = 540
    ∧ (paperSizes .letter).height - 2 * marginOf .normal = 720
    ∧ 540 / (216 + 18) = 2
    ∧ 720 / (360 + 18) = 1
    ∧ calculateLayout deck
        { cardSize := .threeByFive, cardsPerPage := cpp, includeBack := ib,
          paperSize := .letter, orientation := o, margins := .normal }
      = { cardsPerRow := 2, rowsPerPage := 1, cardsPerPage := 2 } := by
  refine ⟨rfl, rfl, rfl, rfl, rfl, rfl, ?_⟩
  simp [calculateLayout, cardSizes, paperSizes, marginOf]

/-- C5: with back sides excluded and capacity `k + 1 ≥ 1`,
`generatePrintPages` returns exactly the consecutive chunks of size
`k + 1` of the card list, in order, each chunk one page tagged front,
and the chunks concatenate back to the original card list (every card
exactly once, original order). -/
theorem c5_front_only_partition (deck : DeckDims) (cards : List Card)
    (s : PrintSettings) (k fuel : Nat)
    (hcap : (calculateLayout deck s).cardsPerPage = k + 1)
    (hback : s.includeBack = false)
    (hfuel : cards.length ≤ fuel) :
    generatePrintPages fuel deck cards s
      = some ((chunksPos k cards).map fun c => { side := .front, cards := c })
    ∧ (chunksPos k cards).flatten = cards := by
  have hloop := pagesLoop_eq_chunksPos .front cards k fuel 0 (by omega)
  rw [List.drop_zero] at hloop
  refine ⟨?_, chunksPos_flatten k cards⟩
  simp only [generatePrintPages, hcap, hloop, hback]
  simp

/-- Witness for C5: five cards at capacity 2 produce exactly three front
pages holding cards 1-2, 3-4 and 5. -/
theorem c5_front_only_partition_witness :
    ((calculateLayout {} settings3x5Front).cardsPerPage = 1 + 1
      ∧ settings3x5Front.includeBack = false
      ∧ fiveCards.length ≤ 5)
    ∧ (generatePrintPages 5 {} fiveCards settings3x5Front
        = some ((chunksPos 1 fiveCards).map fun c => { side := .front, cards := c })
      ∧ (chunksPos 1 fiveCards).flatten = fiveCards) :=
  ⟨⟨by decide, by decide, by decide⟩,
    c5_front_only_partition {} fiveCards settings3x5Front 1 5
      (by decide) (by decide) (by decide)⟩

/-- C6: with back sides included and capacity `k + 1 ≥ 1`, the output is
all front pages in order followed by all back pages in order, built from
one and the same chunk list, so the i-th back page carries exactly the
cards of the i-th front page; the chunks concatenate back to the card
list. -/
theorem c6_fronts_then_backs (deck : DeckDims) (cards : List Card)
    (s : PrintSettings) (k fuel : Nat)
    (hcap : (calculateLayout deck s).cardsPerPage = k + 1)
    (hback : s.includeBack = true)
    (hfuel : cards.length ≤ fuel) :
    generatePrintPages fuel deck cards s
      = some (((chunksPos k cards).map fun c => { side := .front, cards := c })
          ++ ((chunksPos k cards).map fun c => { side := .back, cards := c }))
    ∧ (∀ i : Nat,
        (((chunksPos k cards).map fun c => ({ side := .back, cards := c } : Page))[i]?).map Page.cards
          = (((chunksPos k cards).map fun c => ({ side := .front, cards := c } : Page))[i]?).map Page.cards)
    ∧ (chunksPos k cards).flatten = cards := by
  have hloopF := pagesLoop_eq_chunksPos .front cards k fuel 0 (by omega)
  have hloopB := pagesLoop_eq_chunksPos .back cards k fuel 0 (by omega)
  rw [List.drop_zero] at hloopF hloopB
  refine ⟨?_, ?_, chunksPos_flatten k cards⟩
  · simp only [generatePrintPages, hcap, hloopF, hloopB, hback]
    simp
  · intro i
    simp only [List.getElem?_map]
    cases (chunksPos k cards)[i]? <;> rfl

/-- Witness for C6: five cards at capacity 2 with back sides produce six
pages, three fronts then three backs over the same chunks. -/
theorem c6_fronts_then_backs_witness :
    ((calculateLayout {} settings3x5Back).cardsPerPage = 1 + 1
      ∧ settings3x5Back.includeBack = true
      ∧ fiveCards.length ≤ 5)
    ∧ (generatePrintPages 5 {} fiveCards settings3x5Back
        = some (((chunksPos 1 fiveCards).map fun c => { side := .front, cards := c })
            ++ ((chunksPos 1 fiveCards).map fun c => { side := .back, cards := c }))
      ∧ (∀ i : Nat,
          (((chunksPos 1 fiveCards).map fun c => ({ side := .back, cards := c } : Page))[i]?).map Page.cards
            = (((chunksPos 1 fiveCards).map fun c => ({ side := .front, cards := c } : Page))[i]?).map Page.cards)
      ∧ (chunksPos 1 fiveCards).flatten = fiveCards) :=
  ⟨⟨by decide, by decide, by decide⟩,
    c6_fronts_then_backs {} fiveCards settings3x5Back 1 5
      (by decide) (by decide) (by decide)⟩

/-- C7: committing with the cursor strictly before the last index
truncates every entry beyond the cursor, appends the new entry, moves
the cursor to the new last index, and leaves `redo` a no-op (redo
unavailable, previously reachable redo states discarded). -/
theorem c7_commit_truncates_redo (s : EditorState) (e : HistEntry)
    (hcur : s.historyIndex < s.history.length - 1) :
    (addToHistory e s).history = s.history.take (s.historyIndex + 1) ++ [e]
    ∧ (addToHistory e s).historyIndex = s.historyIndex + 1
    ∧ (addToHistory e s).historyIndex = (addToHistory e s).history.length - 1
    ∧ redo (addToHistory e s) = addToHistory e s := by
  have h3 : (addToHistory e s).historyIndex
      = (addToHistory e s).history.length - 1 := rfl
  refine ⟨rfl, ?_, h3, ?_⟩
  · simp only [addToHistory, List.length_append, List.length_take,
      List.length_singleton]
    omega
  · rw [redo, if_neg]
    rw [h3]
    exact lt_irrefl _

/-- Witness for C7: history of three entries with the cursor back at 0;
the commit drops the two redo entries. -/
theorem c7_commit_truncates_redo_witness :
    (historyBackState.historyIndex < historyBackState.history.length - 1)
    ∧ ((addToHistory .liveRef historyBackState).history
        = historyBackState.history.take (historyBackState.historyIndex + 1) ++ [.liveRef]
      ∧ (addToHistory .liveRef historyBackState).historyIndex
        = historyBackState.historyIndex + 1
      ∧ (addToHistory .liveRef historyBackState).historyIndex
        = (addToHistory .liveRef historyBackState).history.length - 1
      ∧ redo (addToHistory .liveRef historyBackState)
        = addToHistory .liveRef historyBackState) :=
  ⟨by decide, c7_commit_truncates_redo historyBackState .liveRef (by decide)⟩

/-- C8: an empty card list paginates to an empty page list, a valid
`some` result rather than an error, for any fuel and any settings of
positive capacity. -/
theorem c8_empty_cards_empty_pages (fuel : Nat) (deck : DeckDims)
    (s : PrintSettings)
    (hcap : 1 ≤ (calculateLayout deck s).cardsPerPage) :
    generatePrintPages fuel deck ([] : List Card) s = some [] := by
  have hpos : 0 < (calculateLayout deck s).cardsPerPage := hcap
  have hloop : ∀ side : SideTag,
      pagesLoop side ([] : List Card) ((calculateLayout deck s).cardsPerPage) fuel 0
        = some [] := by
    intro side
    cases fuel <;> simp [pagesLoop]
  simp only [generatePrintPages, hloop]
  cases hib : s.includeBack <;> simp

/-- Witness for C8: the concrete 3x5-letter-normal settings have
capacity 2 ≥ 1 and paginate the empty card list to no pages. -/
theorem c8_empty_cards_empty_pages_witness :
    1 ≤ (calculateLayout {} settings3x5Back).cardsPerPage
    ∧ generatePrintPages 3 {} ([] : List Card) settings3x5Back = some [] :=
  ⟨by decide, c8_empty_cards_empty_pages 3 {} settings3x5Back (by decide)⟩

/-- C9: the orientation field is recorded but never read by the layout
computation or the pagination: replacing it leaves `calculateLayout` and
`generatePrintPages` unchanged for every deck, card list and fuel. -/
theorem c9_orientation_not_applied (deck : DeckDims) (s : PrintSettings)
    (o : Orientation) (fuel : Nat) (cards : List Card) :
    calculateLayout deck { s with orientation := o } = calculateLayout deck s
    ∧ generatePrintPages fuel deck cards { s with orientation := o }
        = generatePrintPages fuel deck cards s := by
  cases s
  exact ⟨rfl, rfl⟩

/-- C10: deleting an id absent from the active side leaves the card
unchanged, yet still commits one more history entry holding a state
equal to its predecessor, advances the cursor by one, and clears the
selection. -/
theorem c10_delete_absent_commits (s : EditorState) (elementId : String)
    (habs : elementId ∉ activeIds s)
    (hinv : s.historyIndex < s.history.length) :
    (deleteElement elementId s).card = s.card
    ∧ (deleteElement elementId s).history
        = s.history.take (s.historyIndex + 1) ++ [.snapshot s.card]
    ∧ (deleteElement elementId s).historyIndex = s.historyIndex + 1
    ∧ (deleteElement elementId s).selectedElement = none := by
  have hfilter : ((currentContent s).elements.filter fun el => el.id ≠ elementId)
      = (currentContent s).elements := by
    apply List.filter_eq_self.mpr
    intro el hel
    rw [decide_eq_true_eq]
    intro hEq
    exact habs (hEq ▸ List.mem_map_of_mem (·.id) hel)
  have hcard : setContent s.card s.currentSide
      { currentContent s with
        elements := (currentContent s).elements.filter fun el => el.id ≠ elementId }
      = s.card := by
    rw [hfilter]
    exact setContent_getContent s.card s.currentSide
  refine ⟨?_, ?_, ?_, rfl⟩
  · show setContent s.card s.currentSide
      { currentContent s with
        elements := (currentContent s).elements.filter fun el => el.id ≠ elementId }
      = s.card
    exact hcard
  · show (addToHistory _ s).history = _
    rw [addToHistory]
    rw [hcard]
  · show (addToHistory _ s).historyIndex = _
    simp only [addToHistory, List.length_append, List.length_take,
      List.length_singleton]
    omega

/-- Witness for C10: deleting a missing id from a one-element state
keeps the card, pushes a copy, advances the cursor and clears the
selection. -/
theorem c10_delete_absent_commits_witness :
    (("missing" : String) ∉ activeIds oneElementState
      ∧ oneElementState.historyIndex < oneElementState.history.length)
    ∧ ((deleteElement ("missing") oneElementState).card = oneElementState.card
      ∧ (deleteElement ("missing") oneElementState).history
          = oneElementState.history.take (oneElementState.historyIndex + 1)
            ++ [.snapshot oneElementState.card]
      ∧ (deleteElement ("missing") oneElementState).historyIndex
          = oneElementState.historyIndex + 1
      ∧ (deleteElement ("missing") oneElementState).selectedElement = none) :=
  ⟨⟨by decide, by decide⟩,
    c10_delete_absent_commits oneElementState ("missing") (by decide) (by decide)⟩

end Flashcards
